import Mathlib

/-!
Shallow embedding of `src/app.py` (research-manager): the three-tier data
model (synthesis → reaction → results), the result-processing pipeline of
`result_section`, the persistence function `save_result_to_db`, and the
delete operations of `view_data_section`.

Numeric cell values (time, metric) are modelled as `Rat`. The sqlite store
is modelled as lists of typed rows plus the autoincrement counter for the
`results` table.
-/

namespace App

/-- A row of the `synthesis` table (`id INTEGER PRIMARY KEY AUTOINCREMENT,
user_id, date, name, memo, amount`). -/
structure SynthesisRow where
  id : Nat
  user_id : Nat
  date : String
  name : String
  memo : String
  amount : Rat
deriving Repr, DecidableEq

/-- A row of the `reaction` table (`id INTEGER PRIMARY KEY AUTOINCREMENT,
user_id, synthesis_id, date, temperature, catalyst_amount, memo`). -/
structure ReactionRow where
  id : Nat
  user_id : Nat
  synthesis_id : Nat
  date : String
  temperature : Rat
  catalyst_amount : Rat
  memo : String
deriving Repr, DecidableEq

/-- The chart artifact written to the `graph BLOB` column. The program
serializes a matplotlib figure of the single line plot of
`time_on_stream` vs `smoothed_dodh`; the byte encoding is opaque, so the
artifact is modelled by the data determining the plot. -/
structure Artifact where
  x : List Rat
  y : List Rat
deriving Repr, DecidableEq

/-- A row of the `results` table (`id INTEGER PRIMARY KEY AUTOINCREMENT,
reaction_id, user_id, graph BLOB, average_dodh REAL`; the unused
`excel_data` column is omitted). -/
structure ResultRow where
  id : Nat
  reaction_id : Nat
  user_id : Nat
  graph : Artifact
  average_dodh : Rat
deriving Repr, DecidableEq

/-- The sqlite database `experiment_manager.db` as created by
`initialize_database`: the three entity tables and the autoincrement
counter for `results.id`. No table other than `users` carries a UNIQUE
constraint; in particular `results.reaction_id` has none. -/
structure DB where
  synthesis : List SynthesisRow
  reaction : List ReactionRow
  results : List ResultRow
  nextResultId : Nat
deriving Repr, DecidableEq

/-- `save_result_to_db`: executes
`INSERT OR REPLACE INTO results (reaction_id, user_id, graph, average_dodh)
VALUES (?, ?, ?, ?)`. The `id` column is omitted, so sqlite assigns a fresh
autoincrement rowid; since `results` has no UNIQUE constraint on
`reaction_id` (only the primary key `id`, which is fresh), the OR REPLACE
clause can never fire and the statement always inserts a new row. -/
def save_result_to_db (db : DB) (reaction_id user_id : Nat)
    (graph : Artifact) (average_dodh : Rat) : DB :=
  { db with
    results := db.results ++
      [{ id := db.nextResultId, reaction_id := reaction_id,
         user_id := user_id, graph := graph, average_dodh := average_dodh }]
    nextResultId := db.nextResultId + 1 }

/-- Synthesis delete in `view_data_section`:
`DELETE FROM synthesis WHERE id = ?`. sqlite foreign keys are not enabled
(no `PRAGMA foreign_keys`), so the delete touches only the `synthesis`
table. -/
def delete_synthesis (db : DB) (sid : Nat) : DB :=
  { db with synthesis := db.synthesis.filter (fun s => s.id ≠ sid) }

/-- Reaction delete in `view_data_section`:
`DELETE FROM reaction WHERE id = ?`. -/
def delete_reaction (db : DB) (rid : Nat) : DB :=
  { db with reaction := db.reaction.filter (fun r => r.id ≠ rid) }

/-- The reaction selection query of `result_section`:
`SELECT ... FROM reaction JOIN synthesis ON reaction.synthesis_id =
synthesis.id WHERE reaction.user_id = ?` (synthesis ids are unique, so the
join keeps a reaction iff a matching synthesis row exists). -/
def reaction_options (db : DB) (user_id : Nat) : List ReactionRow :=
  db.reaction.filter (fun r =>
    r.user_id = user_id ∧ db.synthesis.any (fun s => s.id = r.synthesis_id))

/-- One row of the uploaded Excel table, restricted to the two columns the
program reads; `none` models a missing (NaN) cell. -/
structure UploadRow where
  time : Option Rat
  dodh : Option Rat
deriving Repr, DecidableEq

/-- An uploaded Excel file as parsed by `pd.read_excel`: whether each of
the two required columns is present, and the rows (other columns are
ignored by the program). -/
structure Upload where
  hasTimeCol : Bool
  hasDoDHCol : Bool
  rows : List UploadRow
deriving Repr, DecidableEq

/-- `data[['Time on stream (h)', 'DoDH(%)']].dropna()`: keep rows where
both cells are present, preserving order. -/
def dropna (rows : List UploadRow) : List (Rat × Rat) :=
  rows.filterMap (fun r =>
    match r.time, r.dodh with
    | some t, some d => some (t, d)
    | _, _ => none)

/-- The boolean mask `time_on_stream >= 1` (numpy elementwise
comparison). -/
def valid_indices (time : List Rat) : List Bool :=
  time.map (fun t => decide (1 ≤ t))

/-- Numpy boolean-mask indexing `xs[mask]`: keep entries at positions
where the mask is true, preserving order. -/
def applyMask {α : Type} (mask : List Bool) (xs : List α) : List α :=
  (mask.zip xs).filterMap (fun p => if p.1 then some p.2 else none)

/-- `dodh.mean()`: arithmetic mean (sum divided by length). -/
def mean (xs : List Rat) : Rat :=
  xs.sum / (xs.length : Rat)

/-- The failure points of a `result_section` run, named as in the spec's
error taxonomy: missing required columns (`ValidationError`, surfaced as
"The file must contain ..."), empty post-threshold sequence
(`EmptyDataError`, surfaced as "Filtered data is empty ..."), and
`savgol_filter` rejecting fewer samples than its window
(`InsufficientDataError`, a ValueError surfaced by the catch-all
"An error occurred: ..."). -/
inductive PipelineError where
  | ValidationError
  | EmptyDataError
  | InsufficientDataError
deriving Repr, DecidableEq

/-- Everything a run of the upload-processing branch of `result_section`
produces: the values shown via `st.metric` (in order), the database after
the run, and the failure if one occurred. -/
structure RunResult where
  displayed : List Rat
  db : DB
  error : Option PipelineError
deriving Repr, DecidableEq

/-- The upload-processing branch of `result_section`, for a selected
`reaction_id` and uploaded file. `smooth` is the numeric core of
`scipy.signal.savgol_filter(·, window_length=11, polyorder=2)`, kept as a
parameter (scipy is outside the repository); its length precondition is
modelled explicitly: with the default mode "interp", `savgol_filter`
raises ValueError unless `window_length ≤ len(x)`. On success the figure
plots `time_on_stream` vs the smoothed sequence and `save_result_to_db`
persists the artifact together with the average. -/
def result_section_run (smooth : List Rat → List Rat) (db : DB)
    (user_id reaction_id : Nat) (u : Upload) : RunResult :=
  if u.hasTimeCol && u.hasDoDHCol then
    let filtered_data := dropna u.rows
    let time0 := filtered_data.map Prod.fst
    let dodh0 := filtered_data.map Prod.snd
    let mask := valid_indices time0
    let time_on_stream := applyMask mask time0
    let dodh := applyMask mask dodh0
    if time_on_stream.length > 0 && dodh.length > 0 then
      let average_dodh := mean dodh
      -- st.metric("Average DoDH (%)", ...) is rendered here, before smoothing
      if 11 ≤ dodh.length then
        let smoothed_dodh := smooth dodh
        let fig : Artifact := { x := time_on_stream, y := smoothed_dodh }
        { displayed := [average_dodh]
          db := save_result_to_db db reaction_id user_id fig average_dodh
          error := none }
      else
        { displayed := [average_dodh], db := db
          error := some PipelineError.InsufficientDataError }
    else
      { displayed := [], db := db, error := some PipelineError.EmptyDataError }
  else
    { displayed := [], db := db, error := some PipelineError.ValidationError }

/-- The metric sequence after dropna and the time threshold, as the
pipeline computes it (both column sequences filtered by the mask
`time ≥ 1`). -/
def filteredDodh (u : Upload) : List Rat :=
  applyMask (valid_indices ((dropna u.rows).map Prod.fst))
    ((dropna u.rows).map Prod.snd)

/-- The time sequence after dropna and the time threshold. -/
def filteredTime (u : Upload) : List Rat :=
  applyMask (valid_indices ((dropna u.rows).map Prod.fst))
    ((dropna u.rows).map Prod.fst)

/-- Characterization of an input row the pipeline retains: both cells
present and time ≥ 1. -/
def retained (r : UploadRow) : Bool :=
  match r.time, r.dodh with
  | some t, some _ => decide ((1 : Rat) ≤ t)
  | _, _ => false

/-- A concrete synthesis row (user 1). -/
def syn1 : SynthesisRow :=
  { id := 1, user_id := 1, date := "", name := "cat", memo := "", amount := 1 }

/-- A concrete reaction row of user 1 referencing `syn1`. -/
def rxn1 : ReactionRow :=
  { id := 1, user_id := 1, synthesis_id := 1, date := "", temperature := 300,
    catalyst_amount := 1, memo := "" }

/-- A concrete starting database: one synthesis, one reaction, no results. -/
def db0 : DB :=
  { synthesis := [syn1], reaction := [rxn1], results := [], nextResultId := 1 }

/-- Spec scenario 1: 20 rows, time = 0..19 h, DoDH constant 50%. -/
def upload20 : Upload :=
  { hasTimeCol := true, hasDoDHCol := true
    rows := (List.range 20).map (fun i => { time := some (i : Rat), dodh := some 50 }) }

/-- Spec scenario 2: 5 rows, all with time ≥ 1. -/
def upload5 : Upload :=
  { hasTimeCol := true, hasDoDHCol := true
    rows := (List.range 5).map (fun i => { time := some ((i + 1 : Nat) : Rat), dodh := some 10 }) }

/-- An upload whose only row has time < 1, so nothing survives the
threshold filter. -/
def upload0 : Upload :=
  { hasTimeCol := true, hasDoDHCol := true
    rows := [{ time := some 0, dodh := some 10 }] }

/-- Spec scenario 4: an upload lacking the metric column. -/
def uploadNoCol : Upload :=
  { hasTimeCol := true, hasDoDHCol := false
    rows := [{ time := some 1, dodh := none }] }

/-- The database after two successful pipeline runs for reaction 1 of user
1, both uploading `upload20` (the smoothing core is irrelevant to
persistence of rows; `id` stands in for it). -/
def dbAfterTwoRuns : DB :=
  (result_section_run id
    (result_section_run id db0 1 1 upload20).db 1 1 upload20).db

end App

namespace App

lemma applyMask_map {α β : Type} (q : α → Bool) (g : α → β) :
    ∀ ps : List α, applyMask (ps.map q) (ps.map g) = (ps.filter q).map g := by
  intro ps
  induction ps with
  | nil => rfl
  | cons p ps ih =>
      simp only [List.map_cons, applyMask, List.zip_cons_cons, List.filterMap_cons,
        List.filter_cons]
      cases hq : q p with
      | false => simpa [applyMask] using ih
      | true => simpa [applyMask] using ih

lemma filteredTime_eq (u : Upload) :
    filteredTime u =
      ((dropna u.rows).filter (fun p => decide ((1 : Rat) ≤ p.1))).map Prod.fst := by
  unfold filteredTime valid_indices
  rw [List.map_map]
  exact applyMask_map _ _ _

lemma filteredDodh_eq (u : Upload) :
    filteredDodh u =
      ((dropna u.rows).filter (fun p => decide ((1 : Rat) ≤ p.1))).map Prod.snd := by
  unfold filteredDodh valid_indices
  rw [List.map_map]
  exact applyMask_map _ _ _

lemma filteredTime_length_eq (u : Upload) :
    (filteredTime u).length = (filteredDodh u).length := by
  rw [filteredTime_eq, filteredDodh_eq, List.length_map, List.length_map]

lemma zip_map_fst_snd {α β : Type} :
    ∀ l : List (α × β), (l.map Prod.fst).zip (l.map Prod.snd) = l := by
  intro l
  induction l with
  | nil => rfl
  | cons p ps ih => simp [ih]

lemma filter_dropna_length (rows : List UploadRow) :
    ((dropna rows).filter (fun p => decide ((1 : Rat) ≤ p.1))).length =
      rows.countP retained := by
  induction rows with
  | nil => rfl
  | cons r rs ih =>
      obtain ⟨t?, d?⟩ := r
      cases t? with
      | none => simpa [dropna, retained, List.countP_cons] using ih
      | some t =>
          cases d? with
          | none => simpa [dropna, retained, List.countP_cons] using ih
          | some d =>
              by_cases h : (1 : Rat) ≤ t
              · simpa [dropna, retained, List.countP_cons, List.filter_cons, h] using ih
              · simpa [dropna, retained, List.countP_cons, List.filter_cons, h] using ih

lemma run_invalid (smooth : List Rat → List Rat) (db : DB) (uid rid : Nat)
    (u : Upload) (h : u.hasTimeCol = false ∨ u.hasDoDHCol = false) :
    result_section_run smooth db uid rid u =
      { displayed := [], db := db, error := some PipelineError.ValidationError } := by
  rcases h with h | h <;> simp [result_section_run, h]

lemma run_empty (smooth : List Rat → List Rat) (db : DB) (uid rid : Nat)
    (u : Upload) (h1 : u.hasTimeCol = true) (h2 : u.hasDoDHCol = true)
    (h0 : (filteredDodh u).length = 0) :
    result_section_run smooth db uid rid u =
      { displayed := [], db := db, error := some PipelineError.EmptyDataError } := by
  have ht : (filteredTime u).length = 0 := by rw [filteredTime_length_eq]; exact h0
  simp [result_section_run, h1, h2, filteredDodh, filteredTime] at *
  simp [ht, h0]

lemma run_insufficient (smooth : List Rat → List Rat) (db : DB) (uid rid : Nat)
    (u : Upload) (h1 : u.hasTimeCol = true) (h2 : u.hasDoDHCol = true)
    (hlo : 0 < (filteredDodh u).length) (hhi : (filteredDodh u).length < 11) :
    result_section_run smooth db uid rid u =
      { displayed := [mean (filteredDodh u)], db := db
        error := some PipelineError.InsufficientDataError } := by
  have ht : 0 < (filteredTime u).length := by rw [filteredTime_length_eq]; exact hlo
  have hhi' : ¬ 11 ≤ (filteredDodh u).length := by omega
  simp only [result_section_run, h1, h2, Bool.and_self, if_true]
  simp [filteredDodh, filteredTime] at ht hlo hhi' ⊢
  simp [ht, hlo, hhi']

lemma run_success (smooth : List Rat → List Rat) (db : DB) (uid rid : Nat)
    (u : Upload) (h1 : u.hasTimeCol = true) (h2 : u.hasDoDHCol = true)
    (hlen : 11 ≤ (filteredDodh u).length) :
    result_section_run smooth db uid rid u =
      { displayed := [mean (filteredDodh u)]
        db := save_result_to_db db rid uid
          { x := filteredTime u, y := smooth (filteredDodh u) }
          (mean (filteredDodh u))
        error := none } := by
  have hlo : 0 < (filteredDodh u).length := by omega
  have ht : 0 < (filteredTime u).length := by rw [filteredTime_length_eq]; exact hlo
  simp only [result_section_run, h1, h2, Bool.and_self, if_true]
  simp [filteredDodh, filteredTime] at ht hlo hlen ⊢
  simp [ht, hlo, hlen]

lemma error_none_inv (smooth : List Rat → List Rat) (db : DB) (uid rid : Nat)
    (u : Upload) (h : (result_section_run smooth db uid rid u).error = none) :
    u.hasTimeCol = true ∧ u.hasDoDHCol = true ∧ 11 ≤ (filteredDodh u).length := by
  by_cases h1 : u.hasTimeCol = true
  · by_cases h2 : u.hasDoDHCol = true
    · by_cases hlen : 11 ≤ (filteredDodh u).length
      · exact ⟨h1, h2, hlen⟩
      · by_cases hlo : 0 < (filteredDodh u).length
        · rw [run_insufficient smooth db uid rid u h1 h2 hlo (by omega)] at h
          simp at h
        · rw [run_empty smooth db uid rid u h1 h2 (by omega)] at h
          simp at h
    · rw [run_invalid smooth db uid rid u (Or.inr (by simpa using h2))] at h
      simp at h
  · rw [run_invalid smooth db uid rid u (Or.inl (by simpa using h1))] at h
    simp at h

/-- Claim C1: the spec claims that after any sequence of successful runs
calling `save_result_to_db` for a reaction_id, exactly one Result row
exists for it (replace-in-place upsert). The code violates this: `results`
has no UNIQUE constraint on `reaction_id`, so `INSERT OR REPLACE` (with a
fresh autoincrement `id`) never conflicts and always inserts. Two
successful runs for reaction 1 leave two Result rows for reaction 1. -/
theorem results_duplicate_on_second_run :
    (result_section_run id db0 1 1 upload20).error = none ∧
    (result_section_run id (result_section_run id db0 1 1 upload20).db 1 1 upload20).error
      = none ∧
    (dbAfterTwoRuns.results.filter (fun row => row.reaction_id = 1)).length = 2 :=
  ⟨by decide, by decide, by decide⟩

/-- Claim C2: whenever a run succeeds, the persisted (and displayed)
average equals the arithmetic mean of the filtered, unsmoothed metric
values; the statement holds for an arbitrary smoothing core `smooth`, and
the right-hand side does not mention `smooth`, so the smoothed values
never enter the average computation. -/
theorem persisted_average_is_mean_of_filtered_unsmoothed
    (smooth : List Rat → List Rat) (db : DB) (uid rid : Nat) (u : Upload)
    (h : (result_section_run smooth db uid rid u).error = none) :
    ∃ row : ResultRow,
      (result_section_run smooth db uid rid u).db.results = db.results ++ [row] ∧
      row.average_dodh = mean (filteredDodh u) ∧
      (result_section_run smooth db uid rid u).displayed = [mean (filteredDodh u)] := by
  obtain ⟨h1, h2, hlen⟩ := error_none_inv smooth db uid rid u h
  rw [run_success smooth db uid rid u h1 h2 hlen]
  exact ⟨_, rfl, rfl, rfl⟩

theorem persisted_average_is_mean_of_filtered_unsmoothed_witness :
    (result_section_run id db0 1 1 upload20).error = none ∧
    ∃ row : ResultRow,
      (result_section_run id db0 1 1 upload20).db.results = db0.results ++ [row] ∧
      row.average_dodh = mean (filteredDodh upload20) ∧
      (result_section_run id db0 1 1 upload20).displayed = [mean (filteredDodh upload20)] :=
  ⟨by decide,
    persisted_average_is_mean_of_filtered_unsmoothed id db0 1 1 upload20 (by decide)⟩

/-- Claim C3: for every valid upload (both required columns present), the
retained sample count after dropna and the time ≥ 1 threshold equals the
count of input rows with both cells present and time ≥ 1, and both
sequences are filtered by the same mask, preserving index correspondence
and row order. -/
theorem retained_count_and_correspondence (u : Upload)
    (h1 : u.hasTimeCol = true) (h2 : u.hasDoDHCol = true) :
    (filteredTime u).length = u.rows.countP retained ∧
    (filteredDodh u).length = u.rows.countP retained ∧
    (filteredTime u).zip (filteredDodh u) =
      (dropna u.rows).filter (fun p => decide ((1 : Rat) ≤ p.1)) := by
  refine ⟨?_, ?_, ?_⟩
  · rw [filteredTime_eq, List.length_map, filter_dropna_length]
  · rw [filteredDodh_eq, List.length_map, filter_dropna_length]
  · rw [filteredTime_eq, filteredDodh_eq, zip_map_fst_snd]

theorem retained_count_and_correspondence_witness :
    upload20.hasTimeCol = true ∧ upload20.hasDoDHCol = true ∧
    ((filteredTime upload20).length = upload20.rows.countP retained ∧
     (filteredDodh upload20).length = upload20.rows.countP retained ∧
     (filteredTime upload20).zip (filteredDodh upload20) =
       (dropna upload20.rows).filter (fun p => decide ((1 : Rat) ≤ p.1))) :=
  ⟨rfl, rfl, retained_count_and_correspondence upload20 rfl rfl⟩

/-- Claim C4: if between 1 and 10 samples survive the threshold filter,
the run fails with `InsufficientDataError` (scipy rejecting the 11-sample
window) and the database is unchanged — no Result row is created or
modified. -/
theorem insufficient_samples_error_and_no_persist
    (smooth : List Rat → List Rat) (db : DB) (uid rid : Nat) (u : Upload)
    (h1 : u.hasTimeCol = true) (h2 : u.hasDoDHCol = true)
    (hlo : 0 < (filteredDodh u).length) (hhi : (filteredDodh u).length < 11) :
    (result_section_run smooth db uid rid u).error
      = some PipelineError.InsufficientDataError ∧
    (result_section_run smooth db uid rid u).db = db := by
  rw [run_insufficient smooth db uid rid u h1 h2 hlo hhi]
  exact ⟨rfl, rfl⟩

theorem insufficient_samples_error_and_no_persist_witness :
    upload5.hasTimeCol = true ∧ upload5.hasDoDHCol = true ∧
    0 < (filteredDodh upload5).length ∧ (filteredDodh upload5).length < 11 ∧
    ((result_section_run id db0 1 1 upload5).error
        = some PipelineError.InsufficientDataError ∧
     (result_section_run id db0 1 1 upload5).db = db0) :=
  ⟨rfl, rfl, by decide, by decide,
    insufficient_samples_error_and_no_persist id db0 1 1 upload5 rfl rfl
      (by decide) (by decide)⟩

/-- Claim C5: if either required column is missing, the run fails with
`ValidationError`, nothing is displayed (no filtering/averaging/smoothing
output), and the database is unchanged. -/
theorem missing_column_validation_error_and_no_persist
    (smooth : List Rat → List Rat) (db : DB) (uid rid : Nat) (u : Upload)
    (h : u.hasTimeCol = false ∨ u.hasDoDHCol = false) :
    (result_section_run smooth db uid rid u).error = some PipelineError.ValidationError ∧
    (result_section_run smooth db uid rid u).displayed = [] ∧
    (result_section_run smooth db uid rid u).db = db := by
  rw [run_invalid smooth db uid rid u h]
  exact ⟨rfl, rfl, rfl⟩

theorem missing_column_validation_error_and_no_persist_witness :
    (uploadNoCol.hasTimeCol = false ∨ uploadNoCol.hasDoDHCol = false) ∧
    ((result_section_run id db0 1 1 uploadNoCol).error
        = some PipelineError.ValidationError ∧
     (result_section_run id db0 1 1 uploadNoCol).displayed = [] ∧
     (result_section_run id db0 1 1 uploadNoCol).db = db0) :=
  ⟨Or.inr rfl,
    missing_column_validation_error_and_no_persist id db0 1 1 uploadNoCol (Or.inr rfl)⟩

/-- Claim C6: if the post-threshold sequence is empty, the run fails with
`EmptyDataError` before the average or the smoothing step: no average is
displayed and the database is unchanged. -/
theorem empty_filtered_error_before_average_and_smoothing
    (smooth : List Rat → List Rat) (db : DB) (uid rid : Nat) (u : Upload)
    (h1 : u.hasTimeCol = true) (h2 : u.hasDoDHCol = true)
    (h0 : filteredDodh u = []) :
    (result_section_run smooth db uid rid u).error = some PipelineError.EmptyDataError ∧
    (result_section_run smooth db uid rid u).displayed = [] ∧
    (result_section_run smooth db uid rid u).db = db := by
  rw [run_empty smooth db uid rid u h1 h2 (by rw [h0]; rfl)]
  exact ⟨rfl, rfl, rfl⟩

theorem empty_filtered_error_before_average_and_smoothing_witness :
    upload0.hasTimeCol = true ∧ upload0.hasDoDHCol = true ∧
    filteredDodh upload0 = [] ∧
    ((result_section_run id db0 1 1 upload0).error = some PipelineError.EmptyDataError ∧
     (result_section_run id db0 1 1 upload0).displayed = [] ∧
     (result_section_run id db0 1 1 upload0).db = db0) :=
  ⟨rfl, rfl, by decide,
    empty_filtered_error_before_average_and_smoothing id db0 1 1 upload0 rfl rfl
      (by decide)⟩

/-- Claim C7: deleting a Synthesis removes only the synthesis rows with
that primary key; a Reaction referencing it (and all Result rows) remain
unchanged — the delete does not cascade to dependents. -/
theorem delete_synthesis_leaves_reaction_and_results
    (db : DB) (s : SynthesisRow) (r : ReactionRow)
    (hs : s ∈ db.synthesis) (hr : r ∈ db.reaction) (href : r.synthesis_id = s.id) :
    s ∉ (delete_synthesis db s.id).synthesis ∧
    (delete_synthesis db s.id).reaction = db.reaction ∧
    (delete_synthesis db s.id).results = db.results ∧
    r ∈ (delete_synthesis db s.id).reaction ∧
    ∀ s' ∈ db.synthesis, s'.id ≠ s.id → s' ∈ (delete_synthesis db s.id).synthesis := by
  refine ⟨?_, rfl, rfl, hr, ?_⟩
  · intro hmem
    simp only [delete_synthesis, List.mem_filter, decide_eq_true_eq] at hmem
    exact hmem.2 rfl
  · intro s' hs' hne
    simp only [delete_synthesis, List.mem_filter, decide_eq_true_eq]
    exact ⟨hs', hne⟩

theorem delete_synthesis_leaves_reaction_and_results_witness :
    syn1 ∈ db0.synthesis ∧ rxn1 ∈ db0.reaction ∧ rxn1.synthesis_id = syn1.id ∧
    (syn1 ∉ (delete_synthesis db0 syn1.id).synthesis ∧
     (delete_synthesis db0 syn1.id).reaction = db0.reaction ∧
     (delete_synthesis db0 syn1.id).results = db0.results ∧
     rxn1 ∈ (delete_synthesis db0 syn1.id).reaction ∧
     ∀ s' ∈ db0.synthesis, s'.id ≠ syn1.id →
       s' ∈ (delete_synthesis db0 syn1.id).synthesis) :=
  ⟨by decide, by decide, rfl,
    delete_synthesis_leaves_reaction_and_results db0 syn1 rxn1 (by decide) (by decide) rfl⟩

/-- Claim C8: every run is atomic with respect to persistence: on any
modelled failure the database is unchanged, and on success exactly one
Result row is appended, carrying the average and the artifact together in
that single write (the other tables untouched). -/
theorem run_is_atomic (smooth : List Rat → List Rat) (db : DB) (uid rid : Nat)
    (u : Upload) :
    (∀ e, (result_section_run smooth db uid rid u).error = some e →
      (result_section_run smooth db uid rid u).db = db) ∧
    ((result_section_run smooth db uid rid u).error = none →
      ∃ row : ResultRow,
        (result_section_run smooth db uid rid u).db.synthesis = db.synthesis ∧
        (result_section_run smooth db uid rid u).db.reaction = db.reaction ∧
        (result_section_run smooth db uid rid u).db.results = db.results ++ [row] ∧
        row.average_dodh = mean (filteredDodh u) ∧
        row.graph = { x := filteredTime u, y := smooth (filteredDodh u) }) := by
  by_cases h1 : u.hasTimeCol = true
  · by_cases h2 : u.hasDoDHCol = true
    · by_cases hlen : 11 ≤ (filteredDodh u).length
      · rw [run_success smooth db uid rid u h1 h2 hlen]
        exact ⟨fun e he => by simp at he, fun _ => ⟨_, rfl, rfl, rfl, rfl, rfl⟩⟩
      · by_cases hlo : 0 < (filteredDodh u).length
        · rw [run_insufficient smooth db uid rid u h1 h2 hlo (by omega)]
          exact ⟨fun e _ => rfl, fun hn => by simp at hn⟩
        · rw [run_empty smooth db uid rid u h1 h2 (by omega)]
          exact ⟨fun e _ => rfl, fun hn => by simp at hn⟩
    · rw [run_invalid smooth db uid rid u (Or.inr (by simpa using h2))]
      exact ⟨fun e _ => rfl, fun hn => by simp at hn⟩
  · rw [run_invalid smooth db uid rid u (Or.inl (by simpa using h1))]
    exact ⟨fun e _ => rfl, fun hn => by simp at hn⟩

theorem run_is_atomic_witness :
    (result_section_run id db0 1 1 upload5).error
      = some PipelineError.InsufficientDataError ∧
    (result_section_run id db0 1 1 upload5).db = db0 :=
  ⟨by decide,
    (run_is_atomic id db0 1 1 upload5).1 PipelineError.InsufficientDataError (by decide)⟩

/-- Claim C9: with between 1 and 10 post-filter samples, the average is
computed and displayed via the metric widget before the smoothing step, so
the caller observes the average even though the run then fails with
`InsufficientDataError` and nothing is persisted. -/
theorem average_displayed_despite_smoothing_failure
    (smooth : List Rat → List Rat) (db : DB) (uid rid : Nat) (u : Upload)
    (h1 : u.hasTimeCol = true) (h2 : u.hasDoDHCol = true)
    (hlo : 0 < (filteredDodh u).length) (hhi : (filteredDodh u).length < 11) :
    (result_section_run smooth db uid rid u).displayed = [mean (filteredDodh u)] ∧
    (result_section_run smooth db uid rid u).error
      = some PipelineError.InsufficientDataError ∧
    (result_section_run smooth db uid rid u).db = db := by
  rw [run_insufficient smooth db uid rid u h1 h2 hlo hhi]
  exact ⟨rfl, rfl, rfl⟩

theorem average_displayed_despite_smoothing_failure_witness :
    upload5.hasTimeCol = true ∧ upload5.hasDoDHCol = true ∧
    0 < (filteredDodh upload5).length ∧ (filteredDodh upload5).length < 11 ∧
    ((result_section_run id db0 2 1 upload5).displayed = [mean (filteredDodh upload5)] ∧
     (result_section_run id db0 2 1 upload5).error
        = some PipelineError.InsufficientDataError ∧
     (result_section_run id db0 2 1 upload5).db = db0) :=
  ⟨rfl, rfl, by decide, by decide,
    average_displayed_despite_smoothing_failure id db0 2 1 upload5 rfl rfl
      (by decide) (by decide)⟩

/-- Claim C10: when the selected reaction comes from the owner-scoped
selection list (`reaction_options`) and the run succeeds, the persisted
Result row records the session user as owner and references that reaction,
so (reaction ids being unique, as the primary key guarantees) the Result
owner equals the owner of the Reaction it references. -/
theorem result_owner_matches_reaction_owner
    (smooth : List Rat → List Rat) (db : DB) (uid : Nat) (u : Upload) (r : ReactionRow)
    (hr : r ∈ reaction_options db uid)
    (hnd : (db.reaction.map ReactionRow.id).Nodup)
    (hok : (result_section_run smooth db uid r.id u).error = none) :
    ∃ row : ResultRow,
      (result_section_run smooth db uid r.id u).db.results = db.results ++ [row] ∧
      row.user_id = uid ∧ row.reaction_id = r.id ∧
      ∀ r' ∈ db.reaction, r'.id = row.reaction_id → r'.user_id = row.user_id := by
  obtain ⟨h1, h2, hlen⟩ := error_none_inv smooth db uid r.id u hok
  have hmem : r ∈ db.reaction ∧ r.user_id = uid := by
    have h := hr
    simp only [reaction_options, List.mem_filter, decide_eq_true_eq] at h
    exact ⟨h.1, h.2.1⟩
  rw [run_success smooth db uid r.id u h1 h2 hlen]
  refine ⟨_, rfl, rfl, rfl, ?_⟩
  intro r' hr' hid
  have heq : r' = r := List.inj_on_of_nodup_map hnd hr' hmem.1 hid
  rw [heq]
  exact hmem.2

theorem result_owner_matches_reaction_owner_witness :
    rxn1 ∈ reaction_options db0 1 ∧
    (db0.reaction.map ReactionRow.id).Nodup ∧
    (result_section_run id db0 1 rxn1.id upload20).error = none ∧
    ∃ row : ResultRow,
      (result_section_run id db0 1 rxn1.id upload20).db.results = db0.results ++ [row] ∧
      row.user_id = 1 ∧ row.reaction_id = rxn1.id ∧
      ∀ r' ∈ db0.reaction, r'.id = row.reaction_id → r'.user_id = row.user_id :=
  ⟨by decide, by decide, by decide,
    result_owner_matches_reaction_owner id db0 1 upload20 rxn1 (by decide) (by decide)
      (by decide)⟩

end App
